import Mathlib

/-!
Verification of the vinicius.dev blog: a shallow embedding of the site
configuration (`blog.config.ts`), the status-badge mapper, the social-icon
list renderer (`components/social-list.tsx`), the home-page renderer and the
root layout, together with proofs of the specified properties.

JavaScript conventions are embedded explicitly: a missing object property is
the empty string (both are falsy in the guards the code uses), an object is
an association list in key insertion order, and a React child of value
`undefined` is dropped from the rendered output.
-/

set_option autoImplicit false

namespace ViniciusDev

/-- Result of the status-badge mapper in `blog.config.ts`. The JavaScript
function can return the empty object `\x7b\x7d` (when the input is falsy),
a badge object with `variant` and `text` fields, or — when a non-empty
status matches no switch case — fall off the end and return `undefined`. -/
inductive StatusResult where
  | emptyObj
  | badge (variant : String) (text : String)
  | undef
  deriving DecidableEq, Repr

/-- `project.getStatus` from `blog.config.ts` lines 52–77. `!status` is
true exactly for the empty string, the switch covers the four recognized
values, and an unmatched non-empty status returns `undefined`. -/
def getStatus (status : String) : StatusResult :=
  if status = "" then StatusResult.emptyObj
  else if status = "active" then StatusResult.badge "default" "ACTIVE"
  else if status = "dev" then StatusResult.badge "secondary" "DEV"
  else if status = "filed" then StatusResult.badge "outline" "FILED"
  else if status = "offline" then StatusResult.badge "destructive" "OFFLINE"
  else StatusResult.undef

/-- A navigation route of `header.routes`. -/
structure RouteEntry where
  name : String
  value : String
  deriving DecidableEq, Repr

/-- `header` section of the configuration. -/
structure HeaderConfig where
  logo : String
  title : String
  routes : List RouteEntry
  deriving DecidableEq, Repr

/-- `home` section: `intro` holds the path of the imported MDX component;
`socials` is the platform-key-to-URL object, kept in insertion order. -/
structure HomeConfig where
  title : String
  intro : String
  socials : List (String × String)
  deriving DecidableEq, Repr

/-- `blog` section. -/
structure BlogConfig where
  title : String
  description : String
  deriving DecidableEq, Repr

/-- One entry of `project.projects`. -/
structure Project where
  name : String
  description : String
  href : String
  github : String
  status : String
  deriving DecidableEq, Repr, Inhabited

/-- `project` section; its `getStatus` function field is modelled by the
top-level `getStatus` (the closure reads nothing from the record). -/
structure ProjectConfig where
  title : String
  description : String
  projects : List Project
  deriving DecidableEq, Repr

/-- `comment.giscus` provider settings. -/
structure GiscusConfig where
  repo : String
  repoId : String
  category : String
  categoryId : String
  mapping : String
  reactionsEnabled : String
  emitMetadata : String
  inputPosition : String
  theme : String
  lang : String
  loading : String
  deriving DecidableEq, Repr

/-- `comment.utterances` provider settings (`issue-term` renamed to
`issueTerm`). -/
structure UtterancesConfig where
  src : String
  repo : String
  issueTerm : String
  theme : String
  crossorigin : String
  label : String
  async : Bool
  deriving DecidableEq, Repr

/-- `comment` section. -/
structure CommentConfig where
  enabled : Bool
  engine : String
  giscus : GiscusConfig
  utterances : UtterancesConfig
  deriving DecidableEq, Repr

/-- `search` section. -/
structure SearchConfig where
  enabled : Bool
  engine : String
  deriving DecidableEq, Repr

/-- `footer` section. -/
structure FooterConfig where
  isShow : Bool
  isShowPoweredBy : Bool
  deriving DecidableEq, Repr

/-- The shape of the `siteData` record of `blog.config.ts`. -/
structure SiteConfig where
  author : String
  title : String
  description : String
  theme : String
  language : String
  githubRepo : String
  header : HeaderConfig
  home : HomeConfig
  blog : BlogConfig
  project : ProjectConfig
  comment : CommentConfig
  search : SearchConfig
  footer : FooterConfig
  deriving DecidableEq, Repr

/-- The concrete `siteData` record of `blog.config.ts`. -/
def siteData : SiteConfig where
  author := "Vinicius Gurski Ferraz"
  title := "Vinicius.Dev"
  description := "A minimalist blog created with Next.js ,Shadcn-ui and Tailwind.css to publish my articles and projects"
  theme := "dark"
  language := "en"
  githubRepo := "https://github.com/viniciusf-dev"
  header := {
    logo := "/logo.png"
    title := "Vinicius.Dev"
    routes := [
      { name := "Blog", value := "/blog" },
      { name := "Projects", value := "/project" }
    ]
  }
  home := {
    title := "Welcome to Vinicius.Dev"
    intro := "./components/intro.mdx"
    socials := [
      ("email", "vinigurskiferraz@gmail.com"),
      ("github", "https://github.com/viniciusf-dev"),
      ("twitter", ""),
      ("linkedin", "https://www.linkedin.com/in/viniciusgferraz/"),
      ("facebook", ""),
      ("instagram", ""),
      ("youtube", "")
    ]
  }
  blog := {
    title := "My Blog"
    description := "Some texts about stuff that I like"
  }
  project := {
    title := "Look what I've done"
    description := "Some small tools made by myself"
    projects := [
      { name := "Nebulla",
        description := "A lightweight, high-performance text embedding model implemented in Rust.",
        href := "https://github.com/viniciusf-dev/nebulla",
        github := "https://github.com/viniciusf-dev/nebulla",
        status := "active" },
      { name := "Why It Sucks",
        description := "Discover why some games are so bad with the power of Generative AI.",
        href := "https://why-it-sucks.vercel.app/",
        github := "https://github.com/viniciusf-dev/WhyItSucks",
        status := "active" },
      { name := "Poetries By Markov",
        description := "A sophisticated non-LLM-based poetry generator that uses Markov chains to create original poems.",
        href := "https://github.com/viniciusf-dev/poetries-by-markov",
        github := "https://github.com/viniciusf-dev/poetries-by-markov",
        status := "active" },
      { name := "Smart.Notes",
        description := "A fullstack AI application that receives videoclasses in audio format and convert them into smart summaries and questions to improve study.",
        href := "https://smart-notes-phi.vercel.app/",
        github := "https://github.com/ViniciusTheCoder/smart.notes",
        status := "dev" },
      { name := "LangchainGPT",
        description := "An chatbot interface integrated to OpenAI API to build your own base-knowledgment AI, made with React, Next, Node, Typescript & Tailwind.",
        href := "https://github.com/ViniciusTheCoder/LangChainGPT",
        github := "https://github.com/ViniciusTheCoder/LangChainGPT",
        status := "filed" },
      { name := "MelodyMover",
        description := "An web interface to convert music playlists between different music apps.",
        href := "https://github.com/ViniciusTheCoder/melody-mover",
        github := "https://github.com/ViniciusTheCoder/melody-mover",
        status := "dev" },
      { name := "AppKawa",
        description := "An mobile app to track customer returnals and organizate events.",
        href := "https://github.com/ViniciusTheCoder/AppKawa",
        github := "https://github.com/ViniciusTheCoder/AppKawa",
        status := "filed" },
      { name := "Decoding Gamer Emotions",
        description := "Sentiment Analysis of Game Reviews with Large Language Models.",
        href := "https://github.com/ViniciusTheCoder",
        github := "",
        status := "dev" },
      { name := "VegMaromba",
        description := "Website to check vegan supplements",
        href := "https://github.com/ViniciusTheCoder/VegMaromba",
        github := "https://github.com/ViniciusTheCoder/VegMaromba",
        status := "filed" },
      { name := "RentX",
        description := "Mobile app developed in React Native (available for iOS and Android) to rent cars",
        href := "https://github.com/ViniciusTheCoder/RentX",
        github := "https://github.com/ViniciusTheCoder/RentX",
        status := "filed" },
      { name := "RentX API",
        description := "API that runs as a backend in the RentX app, this API list all the cars available in the catalog",
        href := "https://github.com/ViniciusTheCoder/RentX-api",
        github := "https://github.com/ViniciusTheCoder/RentX-api",
        status := "filed" },
      { name := "GoFinance",
        description := "Mobile app developed in React Native (available for iOS and Android) to control your bank accounts and transactions",
        href := "https://github.com/ViniciusTheCoder/finances_mobile.app",
        github := "https://github.com/ViniciusTheCoder/finances_mobile.app",
        status := "filed" }
    ]
  }
  comment := {
    enabled := false
    engine := "giscus"
    giscus := {
      repo := "imyuanli/next-blog"
      repoId := "R_kgDOKTZ_kQ"
      category := "Announcements"
      categoryId := "DIC_kwDOKTZ_kc4CfMXK"
      mapping := "pathname"
      reactionsEnabled := "1"
      emitMetadata := "0"
      inputPosition := "top"
      theme := "light"
      lang := "en"
      loading := "lazy"
    }
    utterances := {
      src := "https://utteranc.es/client.js"
      repo := "imyuanli/next-blog"
      issueTerm := "pathname"
      theme := "github-light"
      crossorigin := "anonymous"
      label := ""
      async := true
    }
  }
  search := {
    enabled := true
    engine := "cmdk"
  }
  footer := {
    isShow := true
    isShowPoweredBy := true
  }

/-- C1: for each of the four recognized status values, `getStatus` returns
exactly the documented variant/label pair. -/
theorem getStatus_recognized_pairs :
    getStatus "active" = StatusResult.badge "default" "ACTIVE" ∧
    getStatus "dev" = StatusResult.badge "secondary" "DEV" ∧
    getStatus "filed" = StatusResult.badge "outline" "FILED" ∧
    getStatus "offline" = StatusResult.badge "destructive" "OFFLINE" := by
  decide

/-- C2 counterexample: the unrecognized non-empty status "unknown" does not
map to the empty result object — `getStatus` falls off the switch and
returns `undefined`. -/
theorem getStatus_unknown_not_emptyObj :
    getStatus "unknown" = StatusResult.undef ∧
    StatusResult.undef ≠ StatusResult.emptyObj := by
  decide

/-- C2 (amended): an absent/empty status yields the empty result object,
while an unrecognized non-empty status yields `undefined`; in neither case
is an error raised (the function is total on all strings). -/
theorem getStatus_unrecognized (s : String)
    (h : s ∉ (["active", "dev", "filed", "offline"] : List String)) :
    getStatus s = if s = "" then StatusResult.emptyObj else StatusResult.undef := by
  simp only [List.mem_cons, List.not_mem_nil, or_false, not_or] at h
  obtain ⟨h1, h2, h3, h4⟩ := h
  by_cases he : s = ""
  · simp [getStatus, he]
  · simp [getStatus, he, h1, h2, h3, h4]

/-- Concrete instance of `getStatus_unrecognized` at the input "bogus". -/
theorem getStatus_unrecognized_witness :
    "bogus" ∉ (["active", "dev", "filed", "offline"] : List String) ∧
    getStatus "bogus" =
      if ("bogus" : String) = "" then StatusResult.emptyObj else StatusResult.undef :=
  ⟨by decide, getStatus_unrecognized "bogus" (by decide)⟩

/-- Icon lookup table `icons` of `components/social-list.tsx` (lines 8–12):
the lucide icon component stored for a platform key, `none` when the key has
no entry (then the JavaScript read `icons[item]` is `undefined` and React
renders no icon). -/
def icons (k : String) : Option String :=
  if k = "email" then some "Mail"
  else if k = "github" then some "Github"
  else if k = "linkedin" then some "Linkedin"
  else none

/-- The JavaScript property read `socials[item]`: the value stored at the
key's occurrence in the object, with the empty string standing in for
`undefined` on a missing key (both are falsy, which is all the renderers
test). -/
def jsLookup (socials : List (String × String)) (k : String) : String :=
  match socials.find? (fun p => p.1 == k) with
  | some p => p.2
  | none => ""

/-- The element `SocialList` renders for one populated key: a wrapper div
with `key={item}` holding a Link whose href carries the mailto scheme
exactly for the email key, with the icon table entry as the link child. -/
structure SocialEntry where
  key : String
  href : String
  icon : Option String
  deriving DecidableEq, Repr

/-- The JSX built inside the map callback of `SocialList` when
`socials[item]` is truthy (lines 25–38 of `components/social-list.tsx`). -/
def mkSocialEntry (item v : String) : SocialEntry :=
  { key := item
    href := if item = "email" then "mailto:" ++ v else v
    icon := icons item }

/-- `SocialList` (`components/social-list.tsx` lines 23–40):
`Object.keys(socials).map(...)` where the callback yields an element only
when `socials[item]` is truthy and React drops the `undefined` results,
modelled by `filterMap` over the key sequence. -/
def renderSocialList (socials : List (String × String)) : List SocialEntry :=
  (socials.map Prod.fst).filterMap (fun item =>
    if jsLookup socials item = "" then none
    else some (mkSocialEntry item (jsLookup socials item)))

@[simp] theorem mkSocialEntry_key (item v : String) :
    (mkSocialEntry item v).key = item := rfl

theorem jsLookup_cons_self (k v : String) (rest : List (String × String)) :
    jsLookup ((k, v) :: rest) k = v := by
  simp [jsLookup, List.find?_cons_of_pos]

theorem jsLookup_cons_ne (p : String × String) (rest : List (String × String))
    (k : String) (h : p.1 ≠ k) : jsLookup (p :: rest) k = jsLookup rest k := by
  simp only [jsLookup]
  rw [List.find?_cons_of_neg]
  simpa using h

/-- On an object (no duplicate keys), iterating over `Object.keys` and
reading each key back is the same as filtering the entry list itself. -/
theorem keysIter_eq_filterMap {α : Type} (mk : String → String → α)
    (socials : List (String × String)) (hnd : (socials.map Prod.fst).Nodup) :
    (socials.map Prod.fst).filterMap (fun item =>
      if jsLookup socials item = "" then none
      else some (mk item (jsLookup socials item))) =
    socials.filterMap (fun p => if p.2 = "" then none else some (mk p.1 p.2)) := by
  induction socials with
  | nil => rfl
  | cons p rest ih =>
    obtain ⟨k, v⟩ := p
    simp only [List.map_cons, List.nodup_cons] at hnd
    obtain ⟨hk, hrest⟩ := hnd
    have htail :
        (rest.map Prod.fst).filterMap (fun item =>
          if jsLookup ((k, v) :: rest) item = "" then none
          else some (mk item (jsLookup ((k, v) :: rest) item))) =
        (rest.map Prod.fst).filterMap (fun item =>
          if jsLookup rest item = "" then none
          else some (mk item (jsLookup rest item))) := by
      refine List.filterMap_congr ?_
      intro item hitem
      have hne : ((k, v) : String × String).1 ≠ item := fun e => hk (by simpa [← e] using hitem)
      rw [jsLookup_cons_ne _ _ _ hne]
    rw [List.map_cons, List.filterMap_cons, List.filterMap_cons]
    simp only [jsLookup_cons_self, htail, ih hrest]

/-- `SocialList` in terms of a direct filter over the entry list. -/
theorem renderSocialList_eq_filterMap (socials : List (String × String))
    (hnd : (socials.map Prod.fst).Nodup) :
    renderSocialList socials =
      socials.filterMap
        (fun p => if p.2 = "" then none else some (mkSocialEntry p.1 p.2)) :=
  keysIter_eq_filterMap mkSocialEntry socials hnd

/-- C3: on every socials object, for every key, the rendered icon list has
exactly as many entries carrying that key as the object has entries with
that key and a non-empty value — one per populated key, zero for keys with
empty or absent values, and skipping never fails (the renderer is total). -/
theorem socialList_entry_count (socials : List (String × String)) (k : String)
    (hnd : (socials.map Prod.fst).Nodup) :
    (renderSocialList socials).countP (fun e => e.key == k) =
      socials.countP (fun p => p.1 == k && p.2 != "") := by
  rw [renderSocialList_eq_filterMap socials hnd]
  clear hnd
  induction socials with
  | nil => rfl
  | cons p rest ih =>
    by_cases hv : p.2 = "" <;>
      simp [List.filterMap_cons, List.countP_cons, hv, ih]

/-- Concrete instance of `socialList_entry_count`: the configured socials
object and the github key. -/
theorem socialList_entry_count_witness :
    (siteData.home.socials.map Prod.fst).Nodup ∧
    (renderSocialList siteData.home.socials).countP (fun e => e.key == "github") =
      siteData.home.socials.countP (fun p => p.1 == "github" && p.2 != "") :=
  ⟨by decide, socialList_entry_count siteData.home.socials "github" (by decide)⟩

/-- C4: every populated entry of the socials object is rendered, and its
link target is the value with the mailto scheme prepended exactly when the
key is email, otherwise the stored URL itself. -/
theorem socialList_href (socials : List (String × String)) (p : String × String)
    (hnd : (socials.map Prod.fst).Nodup) (hp : p ∈ socials) (hv : p.2 ≠ "") :
    mkSocialEntry p.1 p.2 ∈ renderSocialList socials ∧
    (mkSocialEntry p.1 p.2).href =
      (if p.1 = "email" then "mailto:" ++ p.2 else p.2) := by
  constructor
  · rw [renderSocialList_eq_filterMap socials hnd]
    exact List.mem_filterMap.mpr ⟨p, hp, by simp [hv]⟩
  · rfl

/-- Concrete instance of `socialList_href`: the configured email entry is
rendered with a mailto link. -/
theorem socialList_href_witness :
    mkSocialEntry "email" "vinigurskiferraz@gmail.com" ∈
      renderSocialList siteData.home.socials ∧
    (mkSocialEntry "email" "vinigurskiferraz@gmail.com").href =
      (if ("email" : String) = "email" then "mailto:" ++ "vinigurskiferraz@gmail.com"
       else "vinigurskiferraz@gmail.com") :=
  socialList_href siteData.home.socials ("email", "vinigurskiferraz@gmail.com")
    (by decide) (by decide) (by decide)

/-- C5: the keys of the rendered icon list, in order, are exactly the keys
of the socials object in insertion order restricted to non-empty values —
rendering is the identity on the filtered key sequence. -/
theorem socialList_order (socials : List (String × String))
    (hnd : (socials.map Prod.fst).Nodup) :
    (renderSocialList socials).map SocialEntry.key =
      (socials.filter (fun p => p.2 != "")).map Prod.fst := by
  rw [renderSocialList_eq_filterMap socials hnd]
  clear hnd
  induction socials with
  | nil => rfl
  | cons p rest ih =>
    by_cases hv : p.2 = "" <;>
      simp [List.filterMap_cons, List.filter_cons, hv, ih]

/-- Concrete instance of `socialList_order` on the configured socials
object. -/
theorem socialList_order_witness :
    (siteData.home.socials.map Prod.fst).Nodup ∧
    (renderSocialList siteData.home.socials).map SocialEntry.key =
      (siteData.home.socials.filter (fun p => p.2 != "")).map Prod.fst :=
  ⟨by decide, socialList_order siteData.home.socials (by decide)⟩

/-- C6: the icon table of `SocialList` has exactly the keys email, github
and linkedin, and every other platform key with a populated value still
renders as a plain link — icon absent, href the stored URL — rather than
failing. -/
theorem icons_domain_and_iconless_links :
    (∀ k : String, (icons k).isSome ↔ (k = "email" ∨ k = "github" ∨ k = "linkedin")) ∧
    (∀ k v : String,
      k ∈ (["twitter", "facebook", "instagram", "youtube"] : List String) →
      v ≠ "" → (mkSocialEntry k v).icon = none ∧ (mkSocialEntry k v).href = v) := by
  constructor
  · intro k
    simp only [icons]
    split_ifs with h1 h2 h3 <;> simp_all
  · intro k v hk hv
    fin_cases hk <;> exact ⟨by simp [mkSocialEntry, icons], by simp [mkSocialEntry]⟩

/-- Concrete instance of `icons_domain_and_iconless_links`: a populated
twitter value yields an icon-free link to the stored URL. -/
theorem icons_domain_witness :
    (mkSocialEntry "twitter" "https://twitter.com/x").icon = none ∧
    (mkSocialEntry "twitter" "https://twitter.com/x").href = "https://twitter.com/x" :=
  icons_domain_and_iconless_links.2 "twitter" "https://twitter.com/x"
    (by decide) (by decide)

/-- Front-matter metadata block of a content document under `posts/`; the
`draft` field is optional in the source format. -/
structure FrontMatter where
  title : String
  summary : String
  date : String
  tags : List String
  draft : Option Bool
  deriving DecidableEq, Repr

/-- A parsed post as a listing sees it. -/
structure Post where
  title : String
  summary : String
  date : String
  tags : List String
  draft : Bool
  deriving DecidableEq, Repr

/-- Modelled from the spec: the front-matter parsing step of the listing
pipeline is not under `src/`; per the spec, `draft` is a boolean that
defaults to false when absent. -/
def parsePost (fm : FrontMatter) : Post :=
  { title := fm.title, summary := fm.summary, date := fm.date,
    tags := fm.tags, draft := fm.draft.getD false }

/-- Modelled from the spec: the published-listing filter is not under
`src/`; per the spec, posts with `draft: true` are excluded from public
listings. -/
def publishedPosts (posts : List Post) : List Post :=
  posts.filter (fun p => !p.draft)

/-- Front matter of `posts/context-caching.mdx`. -/
def contextCachingPost : FrontMatter where
  title := "Context Caching in LLMs"
  summary := "Cache input tokens and consult them for subsequent requests."
  date := "2024-07-05"
  tags := ["Context Caching", "Gemini", "Tokens", "Prompt"]
  draft := some false

/-- C7 (spec-modelled): a document with `draft: true` never appears in the
published listing, while `draft: false` or an absent `draft` field keeps it
listed. -/
theorem draft_excludes_from_listing (posts : List Post) (fm : FrontMatter)
    (hmem : parsePost fm ∈ posts) :
    (fm.draft = some true → parsePost fm ∉ publishedPosts posts) ∧
    (fm.draft = some false ∨ fm.draft = none → parsePost fm ∈ publishedPosts posts) := by
  constructor
  · intro hd hin
    have hpred := (List.mem_filter.mp hin).2
    simp [parsePost, hd] at hpred
  · intro hd
    refine List.mem_filter.mpr ⟨hmem, ?_⟩
    rcases hd with hd | hd <;> simp [parsePost, hd]

/-- Concrete instance of `draft_excludes_from_listing`: the non-draft
context-caching post stays in the listing of itself. -/
theorem draft_excludes_witness :
    parsePost contextCachingPost ∈ [parsePost contextCachingPost] ∧
    parsePost contextCachingPost ∈ publishedPosts [parsePost contextCachingPost] :=
  ⟨List.mem_singleton.mpr rfl,
    (draft_excludes_from_listing [parsePost contextCachingPost] contextCachingPost
      (List.mem_singleton.mpr rfl)).2 (Or.inl rfl)⟩

/-- Output of the root layout (`app/layout.tsx`): the metadata object reads
`siteData.title` and `siteData.description`, and the shell always composes
header, footer and back-to-top around the routed content. -/
structure LayoutOutput where
  metaTitle : String
  metaDescription : String
  hasHeader : Bool
  hasFooter : Bool
  hasBackToTop : Bool
  deriving DecidableEq, Repr

/-- `SocialList` as a state transformer over the configuration it reads:
the component destructures `home.socials` and returns the rendered list;
the record flows through untouched, as the source contains no assignment
to `siteData`. -/
def runSocialList (cfg : SiteConfig) : List SocialEntry × SiteConfig :=
  (renderSocialList cfg.home.socials, cfg)

/-- The status-badge mapper as a state transformer over the configuration
record that stores it (the closure reads no field of the record). -/
def runGetStatus (cfg : SiteConfig) (status : String) : StatusResult × SiteConfig :=
  (getStatus status, cfg)

/-- `RootLayout` as a state transformer over the configuration it reads. -/
def runLayout (cfg : SiteConfig) : LayoutOutput × SiteConfig :=
  ({ metaTitle := cfg.title, metaDescription := cfg.description,
     hasHeader := true, hasFooter := true, hasBackToTop := true }, cfg)

/-- C8: social-icon rendering, status-badge mapping and layout composition
all hand the configuration back unchanged — each is a pure read of the
record constructed in `blog.config.ts`. -/
theorem config_immutable (cfg : SiteConfig) (status : String) :
    (runSocialList cfg).2 = cfg ∧
    (runGetStatus cfg status).2 = cfg ∧
    (runLayout cfg).2 = cfg :=
  ⟨rfl, rfl, rfl⟩

/-- A rendered React node, as far as the components modelled here build
them. -/
inductive Node where
  | text (s : String)
  | link (href : String) (children : List Node)
  | iconNode (name : String)
  | div (children : List Node)

mutual

/-- Whether a rendered node contains a hyperlink anywhere. -/
def nodeHasLink : Node → Bool
  | Node.text _ => false
  | Node.link _ _ => true
  | Node.iconNode _ => false
  | Node.div cs => nodesHaveLink cs

/-- Whether any node of a list contains a hyperlink. -/
def nodesHaveLink : List Node → Bool
  | [] => false
  | n :: ns => nodeHasLink n || nodesHaveLink ns

end

mutual

/-- Whether a rendered node contains an icon anywhere. -/
def nodeHasIcon : Node → Bool
  | Node.text _ => false
  | Node.link _ cs => nodesHaveIcon cs
  | Node.iconNode _ => true
  | Node.div cs => nodesHaveIcon cs

/-- Whether any node of a list contains an icon. -/
def nodesHaveIcon : List Node → Bool
  | [] => false
  | n :: ns => nodeHasIcon n || nodesHaveIcon ns

end

/-- Icon table of the home-page component (`src/unnamed/part_004` lines
7–10): only email and linkedin entries. -/
def homeIcons (k : String) : Option String :=
  if k = "email" then some "Mail"
  else if k = "linkedin" then some "Linkedin"
  else none

/-- The home-page renderer (`src/unnamed/part_004` lines 20–26): for every
key whose value is truthy, the map callback returns a childless
`<div></div>`; the component's icon table is never read inside the
callback, and React drops the `undefined` results of falsy keys. -/
def renderHome (socials : List (String × String)) : List Node :=
  (socials.map Prod.fst).filterMap (fun item =>
    if jsLookup socials item = "" then none
    else some (Node.div []))

/-- C9: the home-page renderer emits, for every populated social key, one
childless placeholder div containing no hyperlink and no icon, and its
private icon table holds exactly the email and linkedin keys. -/
theorem home_renders_empty_placeholders (socials : List (String × String))
    (hnd : (socials.map Prod.fst).Nodup) :
    (∀ n ∈ renderHome socials,
      n = Node.div [] ∧ nodeHasLink n = false ∧ nodeHasIcon n = false) ∧
    (renderHome socials).length = (socials.filter (fun p => p.2 != "")).length ∧
    (∀ k : String, (homeIcons k).isSome ↔ (k = "email" ∨ k = "linkedin")) := by
  refine ⟨?_, ?_, ?_⟩
  · intro n hn
    obtain ⟨item, hitem, heq⟩ := List.mem_filterMap.mp hn
    by_cases hcond : jsLookup socials item = ""
    · simp [hcond] at heq
    · simp only [hcond, if_false, Option.some.injEq] at heq
      subst heq
      exact ⟨rfl, by simp [nodeHasLink, nodesHaveLink],
        by simp [nodeHasIcon, nodesHaveIcon]⟩
  · have hbridge := keysIter_eq_filterMap (fun _ _ => Node.div []) socials hnd
    have hr : renderHome socials =
        socials.filterMap (fun p => if p.2 = "" then none else some (Node.div [])) := by
      simpa [renderHome] using hbridge
    rw [hr]
    clear hr hbridge hnd
    induction socials with
    | nil => rfl
    | cons p rest ih =>
      by_cases hv : p.2 = "" <;>
        simp [List.filterMap_cons, List.filter_cons, hv, ih]
  · intro k
    simp only [homeIcons]
    split_ifs with h1 h2 <;> simp_all

/-- Concrete instance of `home_renders_empty_placeholders`: on the
configured socials, any rendered element is the empty placeholder. -/
theorem home_placeholders_witness :
    Node.div ([] : List Node) = Node.div [] ∧
    nodeHasLink (Node.div []) = false ∧ nodeHasIcon (Node.div []) = false :=
  (home_renders_empty_placeholders siteData.home.socials (by decide)).1
    (Node.div []) (by
      have h : renderHome siteData.home.socials =
          [Node.div [], Node.div [], Node.div []] := rfl
      rw [h]
      exact List.mem_cons_self _ _)

/-- Whether a `getStatus` result is a populated badge object. -/
def StatusResult.isBadge : StatusResult → Bool
  | StatusResult.badge _ _ => true
  | _ => false

/-- C10: every configured project entry carries one of the four recognized
status values, so `getStatus` returns a populated (variant, text) badge on
each of them. -/
theorem projects_status_recognized (p : Project)
    (hp : p ∈ siteData.project.projects) :
    p.status ∈ (["active", "dev", "filed", "offline"] : List String) ∧
    (getStatus p.status).isBadge = true := by
  have h : ∀ q ∈ siteData.project.projects,
      q.status ∈ (["active", "dev", "filed", "offline"] : List String) ∧
      (getStatus q.status).isBadge = true := by decide
  exact h p hp

/-- Concrete instance of `projects_status_recognized` at the first
configured project. -/
theorem projects_status_witness :
    (siteData.project.projects.headI.status ∈
      (["active", "dev", "filed", "offline"] : List String)) ∧
    (getStatus siteData.project.projects.headI.status).isBadge = true :=
  projects_status_recognized siteData.project.projects.headI (by decide)

end ViniciusDev
